import Mathlib

/-
Verification of the emax_weather integration (sensor-value resolution engine,
API client and refresh coordinator) against its design specification.

The definitions below are a shallow embedding of the Python source:
  - src/sensor.py    : channel discovery (async_setup_entry) and
                       EmaxWeatherSensor.native_value
  - src/api_client.py: EmaxWeatherAPIClient.async_login /
                       async_get_realtime_weather
  - src/__init__.py  : EmaxWeatherCoordinator._async_update_data

Python ints and floats are both modelled as rationals (their equality
semantics agree with Python's cross-type numeric equality); strings are
modelled as Lean strings.  Fields that may be absent are Options.  The one
uncaught exception path in native_value (a KeyError on a missing "channel"
key, sensor.py line 536) is modelled with Except.
-/

deriving instance DecidableEq for Except

/-- A JSON leaf value as used by the resolution code: a Python int/float
(modelled as a rational, since Python compares ints and floats by value) or a
string. -/
inductive Scalar
  | num (q : ℚ)
  | str (s : String)
  deriving DecidableEq, Repr

/-- The "channel" field of a raw sensor entry: either absent (the Python code
then uses the default -1) or carrying a scalar value. -/
inductive ChField
  | missing
  | val (s : Scalar)
  deriving DecidableEq, Repr

/-- Truncation toward zero of a rational, which is what Python's int() does to
a float. -/
def ratTrunc (q : ℚ) : Int := q.num.tdiv (q.den : Int)

/-- Digit accumulation for the string branch of Python's int(): the parse
succeeds only when at least one digit was seen and every character is a
digit. -/
def parseDigits : List Char → Option Nat → Option Nat
  | [], acc => acc
  | c :: cs, acc =>
    if c.isDigit then parseDigits cs (some ((acc.getD 0) * 10 + (c.toNat - 48)))
    else none

/-- Python int() applied to a string: an optional sign followed by decimal
digits parses, anything else raises ValueError (modelled as none). -/
def pyStrToInt (s : String) : Option Int :=
  match s.data with
  | '-' :: cs => (parseDigits cs none).map (fun n => -(n : Int))
  | '+' :: cs => (parseDigits cs none).map (fun n => (n : Int))
  | cs => (parseDigits cs none).map (fun n => (n : Int))

/-- Python int(x) for a scalar x: floats truncate toward zero, strings parse
as an optionally signed integer or raise ValueError (modelled as none). -/
def scalarToInt : Scalar → Option Int
  | .num q => some (ratTrunc q)
  | .str s => pyStrToInt s

/-- int(sensor.get("channel", -1)) with the try/except around it: a missing
field defaults to -1; a value that int() rejects yields none (the loop then
skips the entry). -/
def chFieldToInt : ChField → Option Int
  | .missing => some (-1)
  | .val s => scalarToInt s

/-- The devWindVal nested map.  `Option WindVals` models the Python dict:
none stands for a missing, null or empty (falsy) dict, some for a populated
(truthy) dict whose known keys are the fields below. -/
structure WindVals where
  currWindSpeed : Option Scalar := none
  hourWindSpeed : Option Scalar := none
  dayWindSpeed : Option Scalar := none
  weekWindSpeed : Option Scalar := none
  monthWindSpeed : Option Scalar := none
  yearWindSpeed : Option Scalar := none
  windDirection : Option Scalar := none
  deriving DecidableEq, Repr

/-- The devRainfullVals nested map. -/
structure RainVals where
  monthRainfall : Option Scalar := none
  yearRainfall : Option Scalar := none
  accumulateRainfall : Option Scalar := none
  deriving DecidableEq, Repr

/-- The devNoiseVals nested map. -/
structure NoiseVals where
  hourNoiseMax : Option Scalar := none
  hourNoiseAvg : Option Scalar := none
  dayNoiseMax : Option Scalar := none
  dayNoiseAvg : Option Scalar := none
  deriving DecidableEq, Repr

/-- The devLightVals nested map. -/
structure LightVals where
  currLightIntensity : Option Scalar := none
  hourLightIntensity : Option Scalar := none
  lightIntensityMax : Option Scalar := none
  currUltraviolet : Option Scalar := none
  deriving DecidableEq, Repr

/-- One element of the snapshot's sensorDatas list. -/
structure RawSensorEntry where
  channel : ChField := .missing
  type : Option Scalar := none
  curVal : Option Scalar := none
  devWindVal : Option WindVals := none
  devRainfullVals : Option RainVals := none
  devNoiseVals : Option NoiseVals := none
  devLightVals : Option LightVals := none
  deriving DecidableEq, Repr

/-- The decoded content of a realtime response (the fields the resolution
code reads). -/
structure RawSnapshot where
  sensorDatas : List RawSensorEntry := []
  atmos : Option Scalar := none
  deviceMac : Option Scalar := none
  updateTime : Option Scalar := none
  deriving DecidableEq, Repr

/-- EmaxSensorDescription from src/sensor.py restricted to the fields that
native_value reads. -/
structure EmaxSensorDescription where
  key : String
  value_fn : Option (RawSnapshot → Option Scalar) := none
  sensor_type : Option Int := none
  per_channel : Bool := true

-- Sensor type constants from src/const.py
def SENSOR_TYPE_TEMPERATURE : Int := 1
def SENSOR_TYPE_HUMIDITY : Int := 2
def SENSOR_TYPE_PRESSURE : Int := 7
def SENSOR_TYPE_WIND_SPEED : Int := 3
def SENSOR_TYPE_LIGHT : Int := 6
def SENSOR_TYPE_NOISE : Int := 5
def SENSOR_TYPE_RAINFALL : Int := 4

-- Descriptors from SENSOR_DESCRIPTIONS used in the theorems below.
def temperatureDescription : EmaxSensorDescription :=
  { key := "temperature", sensor_type := some SENSOR_TYPE_TEMPERATURE }

def humidityDescription : EmaxSensorDescription :=
  { key := "humidity", sensor_type := some SENSOR_TYPE_HUMIDITY }

def pressureDescription : EmaxSensorDescription :=
  { key := "pressure" }

def wind_speedDescription : EmaxSensorDescription :=
  { key := "wind_speed", sensor_type := some SENSOR_TYPE_WIND_SPEED }

/-- key.startswith("wind_") (sensor.py line 474), computed structurally over
the character lists. -/
def keyStartsWithWind (key : String) : Bool :=
  List.isPrefixOf "wind_".data key.data

/-- sensor.get("type") == t, Python semantics: only a numeric type field can
equal the integer sensor-type code. -/
def typeIs (e : RawSensorEntry) (t : Int) : Bool :=
  match e.type with
  | some (.num q) => decide (q = (t : ℚ))
  | _ => false

/-- The wind_sensors list comprehension (sensor.py line 475). -/
def windSensors (ss : List RawSensorEntry) : List RawSensorEntry :=
  ss.filter (fun s => typeIs s SENSOR_TYPE_WIND_SPEED)

/-- The same-channel preference loop (sensor.py lines 478-484): first wind
entry whose int-converted channel equals the requested channel and is not 0;
entries whose channel int() raises are skipped. -/
def sameChannelWind (chan : Int) : List RawSensorEntry → Option RawSensorEntry
  | [] => none
  | s :: rest =>
    match chFieldToInt s.channel with
    | none => sameChannelWind chan rest
    | some c => if c = chan ∧ c ≠ 0 then some s else sameChannelWind chan rest

/-- The fallback loop (sensor.py lines 487-491): first wind entry with a
truthy devWindVal, regardless of channel. -/
def firstWithWindVal : List RawSensorEntry → Option RawSensorEntry
  | [] => none
  | s :: rest => if s.devWindVal.isSome then some s else firstWithWindVal rest

/-- The complete chosen-entry computation of the wind branch of
native_value. -/
def windChoose (chan : Int) (sensors : List RawSensorEntry) : Option RawSensorEntry :=
  let ws := windSensors sensors
  match sameChannelWind chan ws with
  | some s => some s
  | none => firstWithWindVal ws

/-- The wind key mapping (sensor.py lines 504-511); a key outside the mapping
looks up None and yields none. -/
def windFieldOf (key : String) (w : WindVals) : Option Scalar :=
  if key = "wind_hour_speed" then w.hourWindSpeed
  else if key = "wind_day_speed" then w.dayWindSpeed
  else if key = "wind_week_speed" then w.weekWindSpeed
  else if key = "wind_month_speed" then w.monthWindSpeed
  else if key = "wind_year_speed" then w.yearWindSpeed
  else if key = "wind_direction" then w.windDirection
  else none

/-- Value extraction from the chosen wind entry (sensor.py lines 497-512):
wind_speed prefers nested currWindSpeed, falling back to the entry's flat
curVal; other keys read the mapped nested field. -/
def windValueFor (key : String) (chosen : RawSensorEntry) : Option Scalar :=
  if key = "wind_speed" then
    match chosen.devWindVal.bind WindVals.currWindSpeed with
    | some v => some v
    | none => chosen.curVal
  else
    chosen.devWindVal.bind (windFieldOf key)

/-- isinstance(value, (int, float)) and value in (65535, 255, 65535.0):
numeric scalars equal to a sentinel; strings never compare equal to ints in
Python. -/
def isSentinel : Scalar → Bool
  | .num q => decide (q = 65535 ∨ q = 255)
  | .str _ => false

/-- Sentinel normalization (sensor.py lines 514-516 and 589-591): a sentinel
numeric becomes None, everything else passes through. -/
def normSentinel : Option Scalar → Option Scalar
  | none => none
  | some v => if isSentinel v then none else some v

/-- The rainfall key mapping (sensor.py lines 552-558). -/
def rainFieldOf (key : String) (r : RainVals) : Option Scalar :=
  if key = "rain_month" then r.monthRainfall
  else if key = "rain_year" then r.yearRainfall
  else if key = "rain_accumulated" then r.accumulateRainfall
  else none

/-- The noise key mapping (sensor.py lines 570-576). -/
def noiseFieldOf (key : String) (n : NoiseVals) : Option Scalar :=
  if key = "noise_hour_max" then n.hourNoiseMax
  else if key = "noise_hour_avg" then n.hourNoiseAvg
  else if key = "noise_day_max" then n.dayNoiseMax
  else if key = "noise_day_avg" then n.dayNoiseAvg
  else none

/-- The primary "noise" key (sensor.py lines 563-568): hour avg, day avg,
hour max, day max, sentinels dropped, first remaining value wins. -/
def noisePrimary (n : Option NoiseVals) : Option Scalar :=
  let cands := [n.bind NoiseVals.hourNoiseAvg, n.bind NoiseVals.dayNoiseAvg,
                n.bind NoiseVals.hourNoiseMax, n.bind NoiseVals.dayNoiseMax]
  (cands.map normSentinel).findSome? id

/-- The light key mapping (sensor.py lines 578-587). -/
def lightFieldOf (key : String) (l : LightVals) : Option Scalar :=
  if key = "light_current" then l.currLightIntensity
  else if key = "light_hour" then l.hourLightIntensity
  else if key = "light_max" then l.lightIntensityMax
  else if key = "ultraviolet" then l.currUltraviolet
  else if key = "light" then l.currLightIntensity
  else none

/-- The Fahrenheit-to-Celsius attempt (sensor.py lines 543-548): applied
when the value is a number; for a None value the guard skips it, and for a
string the TypeError is swallowed by the bare except, leaving the value
unchanged. -/
def tempConvert : Option Scalar → Option Scalar
  | some (.num v) => some (.num ((v - 32) * 5 / 9))
  | o => o

/-- The per-entry value computation of the default branch (sensor.py lines
540-587), before the final sentinel normalization. -/
def extractDefault (key : String) (s : RawSensorEntry) : Option Scalar :=
  let v0 := s.curVal
  let v1 := if key = "temperature" then tempConvert v0 else v0
  let v2 := if key = "rain_month" ∨ key = "rain_year" ∨ key = "rain_accumulated"
    then s.devRainfullVals.bind (rainFieldOf key) else v1
  let v3 :=
    if key = "noise" then noisePrimary s.devNoiseVals
    else if key = "noise_hour_max" ∨ key = "noise_hour_avg" ∨ key = "noise_day_max" ∨ key = "noise_day_avg"
    then s.devNoiseVals.bind (noiseFieldOf key) else v2
  let v4 := if key = "light_current" ∨ key = "light_hour" ∨ key = "light_max" ∨ key = "ultraviolet" ∨ key = "light"
    then s.devLightVals.bind (lightFieldOf key) else v3
  v4

/-- sensor["channel"] in [1, 2, 3] (sensor.py line 536) on the raw field
value: Python list membership is by equality, so floats 1.0/2.0/3.0 match and
strings never do. -/
def rawChannelIn123 : Scalar → Bool
  | .num q => decide (q = 1 ∨ q = 2 ∨ q = 3)
  | .str _ => false

/-- The default resolution loop of native_value (sensor.py lines 521-594).
Except.error models the uncaught KeyError raised by sensor["channel"] on line
536 when the entry has no channel field (reachable only when its defaulted
channel -1 equals the requested channel). -/
def defaultResolve (key : String) (stype : Int) (chan : Int) :
    List RawSensorEntry → Except Unit (Option Scalar)
  | [] => .ok none
  | s :: rest =>
    match chFieldToInt s.channel with
    | none => defaultResolve key stype chan rest
    | some sc =>
      if typeIs s stype = false then defaultResolve key stype chan rest
      else if sc ≠ chan then defaultResolve key stype chan rest
      else
        match s.channel with
        | .missing => .error ()
        | .val v =>
          if rawChannelIn123 v then defaultResolve key stype chan rest
          else .ok (normSentinel (extractDefault key s))

/-- EmaxWeatherSensor.native_value (sensor.py lines 453-600).  coordData is
self.coordinator.data with a falsy value modelled as none. -/
def native_value (d : EmaxSensorDescription) (chan : Int)
    (coordData : Option RawSnapshot) : Except Unit (Option Scalar) :=
  match coordData with
  | none => .ok none
  | some data =>
    match d.value_fn with
    | some f => .ok (f data)
    | none =>
      match d.sensor_type with
      | some stype =>
        if stype = SENSOR_TYPE_WIND_SPEED ∨ keyStartsWithWind d.key then
          match windChoose chan data.sensorDatas with
          | none => .ok none
          | some chosen => .ok (normSentinel (windValueFor d.key chosen))
        else
          defaultResolve d.key stype chan data.sensorDatas
      | none => if d.key = "pressure" then .ok data.atmos else .ok none

/-- The channel-collection loop of async_setup_entry (sensor.py lines
374-381): int-convertible channels are collected, entries whose conversion
raises are skipped. -/
def channelsOf : List RawSensorEntry → List Int
  | [] => []
  | s :: rest =>
    match chFieldToInt s.channel with
    | none => channelsOf rest
    | some c => c :: channelsOf rest

/-- The discovered channel set (sensor.py lines 374-387): collected channels
with 0 force-inserted, deduplicated (the Python code uses a set) and with
channels 1-3 removed.  Represented as a duplicate-free list. -/
def channelSet (entries : List RawSensorEntry) : List Int :=
  ((0 :: channelsOf entries).dedup).filter (fun c => decide (¬(c = 1 ∨ c = 2 ∨ c = 3)))

/-- sorted(channels) (sensor.py line 390): the enumeration order of the
discovered channels. -/
def discoveredChannels (entries : List RawSensorEntry) : List Int :=
  List.insertionSort (· ≤ ·) (channelSet entries)

/-- The content map of a login response (src/api_client.py lines 71-77).  The
token field is Option (Option String): the outer layer models key presence
("token" in content), the inner layer a possibly-null value. -/
structure LoginContent where
  token : Option (Option String) := none
  nickname : Option String := none
  deriving DecidableEq, Repr

/-- The mutable state of EmaxWeatherAPIClient that login and the realtime
fetch read and write. -/
structure ClientState where
  token : Option String := none
  user_data : Option LoginContent := none
  deriving DecidableEq, Repr

/-- The outcome of the login HTTP round trip: a decoded response whose
content field is either a populated map or missing/falsy, a timeout, or any
other transport/parse error. -/
inductive LoginOutcome
  | response (content : Option LoginContent)
  | timeout
  | transportError
  deriving DecidableEq, Repr

/-- The token field the login response carries, if any; none for every
outcome async_login treats as a failure. -/
def LoginOutcome.tokenField : LoginOutcome → Option (Option String)
  | .response (some c) => c.token
  | _ => none

/-- EmaxWeatherAPIClient.async_login (src/api_client.py lines 49-89): on a
content map carrying a token, stores token and user_data and returns True;
on a missing/falsy content, a content without a token key, a timeout or any
other exception, returns False with the state untouched. -/
def async_login (st : ClientState) (o : LoginOutcome) : Bool × ClientState :=
  match o with
  | .response (some c) =>
    match c.token with
    | some t => (true, ⟨t, some c⟩)
    | none => (false, st)
  | .response none => (false, st)
  | .timeout => (false, st)
  | .transportError => (false, st)

/-- Python truthiness of self.token (an absent or empty-string token is
falsy). -/
def tokenTruthy (st : ClientState) : Bool :=
  match st.token with
  | some t => !t.data.isEmpty
  | none => false

/-- The outcome of the realtime HTTP round trip; a response whose content
field is missing or falsy is modelled as response none. -/
inductive FetchOutcome
  | response (content : Option RawSnapshot)
  | timeout
  | transportError
  deriving DecidableEq, Repr

/-- The content the realtime round trip yields to the caller (src/api_client.py
lines 108-127): the content map on success, None on missing content, timeout
or any other exception. -/
def fetchContent : FetchOutcome → Option RawSnapshot
  | .response (some c) => some c
  | .response none => none
  | .timeout => none
  | .transportError => none

/-- EmaxWeatherAPIClient.async_get_realtime_weather (src/api_client.py lines
91-127).  Returns the fetched content (or none), the final client state, and
whether the realtime GET request was issued at all. -/
def async_get_realtime_weather (st : ClientState) (lo : LoginOutcome)
    (fo : FetchOutcome) : Option RawSnapshot × ClientState × Bool :=
  if tokenTruthy st then
    (fetchContent fo, st, true)
  else
    match async_login st lo with
    | (true, st1) => (fetchContent fo, st1, true)
    | (false, st1) => (none, st1, false)

/-- The failure categories of the coordinator's except clauses
(src/__init__.py lines 118-123). -/
inductive FailureKind
  | timeout
  | invalidData
  | generic
  deriving DecidableEq, Repr

/-- The observable result of one coordinator refresh: fresh data, or an
UpdateFailed with its category and message. -/
inductive UpdateOutcome
  | ok (d : RawSnapshot)
  | failed (k : FailureKind) (msg : String)
  deriving DecidableEq, Repr

/-- EmaxWeatherCoordinator._async_update_data (src/__init__.py lines
104-123).  lo1 drives the coordinator's own login attempt, lo2 the login the
client may perform inside the fetch.  The client absorbs timeouts and
transport errors into None (api_client.py lines 122-127), so the only raise
reaching the except chain is the ValueError on an absent result, which the
ValueError clause turns into the InvalidData message. -/
def async_update_data (st : ClientState) (lo1 lo2 : LoginOutcome)
    (fo : FetchOutcome) : UpdateOutcome × ClientState :=
  let st1 := if tokenTruthy st then st else (async_login st lo1).2
  let r := async_get_realtime_weather st1 lo2 fo
  match r.1 with
  | some d => (.ok d, r.2.1)
  | none => (.failed .invalidData "Invalid data from API: No weather data returned", r.2.1)

/-- An entry matches the default scan when its int-converted channel equals
the requested channel and its type equals the descriptor's sensor type. -/
abbrev matchesTC (stype chan : Int) (e : RawSensorEntry) : Prop :=
  chFieldToInt e.channel = some chan ∧ typeIs e stype = true

/-! Concrete entries and snapshots used by witnesses and counterexamples. -/

/-- A humidity-type entry with no channel field at all. -/
def noChanHumEntryA : RawSensorEntry :=
  { type := some (Scalar.num 2), curVal := some (Scalar.num 10) }

/-- A second humidity-type entry with no channel field. -/
def noChanHumEntryB : RawSensorEntry :=
  { type := some (Scalar.num 2), curVal := some (Scalar.num 20) }

/-- An entry whose channel field is a string int() rejects. -/
def badChannelEntry : RawSensorEntry :=
  { channel := ChField.val (Scalar.str "oops") }

/-- A wind-type entry reported on channel 0 with a populated devWindVal. -/
def windEntryCh0 : RawSensorEntry :=
  { channel := ChField.val (Scalar.num 0), type := some (Scalar.num 3),
    devWindVal := some { currWindSpeed := some (Scalar.num 5) } }

/-- A wind-type entry on channel 5 used by the C3 witness. -/
def windEntryCh5 : RawSensorEntry :=
  { channel := ChField.val (Scalar.num 5), type := some (Scalar.num 3),
    devWindVal := some { currWindSpeed := some (Scalar.num 2) } }

/-- The scenario-D entry: wind type, channel 5, devWindVal with
currWindSpeed 3.4. -/
def scenarioDEntry : RawSensorEntry :=
  { channel := ChField.val (Scalar.num 5), type := some (Scalar.num 3),
    devWindVal := some { currWindSpeed := some (Scalar.num 3.4) } }

/-- A temperature-type entry on the given channel with the given numeric
curVal. -/
def tempEntry (chan : Int) (v : ℚ) : RawSensorEntry :=
  { channel := ChField.val (Scalar.num (chan : ℚ)), type := some (Scalar.num 1),
    curVal := some (Scalar.num v) }

/-- A humidity-type entry on channel 5 with curVal 10. -/
def humidityEntryA : RawSensorEntry :=
  { channel := ChField.val (Scalar.num 5), type := some (Scalar.num 2),
    curVal := some (Scalar.num 10) }

/-- A second humidity-type entry on channel 5 with curVal 20. -/
def humidityEntryB : RawSensorEntry :=
  { channel := ChField.val (Scalar.num 5), type := some (Scalar.num 2),
    curVal := some (Scalar.num 20) }

/-- A humidity-type entry on the excluded channel 2 with curVal 10. -/
def hum2EntryA : RawSensorEntry :=
  { channel := ChField.val (Scalar.num 2), type := some (Scalar.num 2),
    curVal := some (Scalar.num 10) }

/-- A second humidity-type entry on channel 2 with curVal 20. -/
def hum2EntryB : RawSensorEntry :=
  { channel := ChField.val (Scalar.num 2), type := some (Scalar.num 2),
    curVal := some (Scalar.num 20) }

/-! Helper lemmas about the embedded definitions. -/

lemma ratTrunc_intCast (n : Int) : ratTrunc ((n : ℚ)) = n := by
  simp [ratTrunc, Rat.num_intCast, Rat.den_intCast]

lemma chFieldToInt_num_intCast (n : Int) :
    chFieldToInt (ChField.val (Scalar.num (n : ℚ))) = some n := by
  simp [chFieldToInt, scalarToInt, ratTrunc_intCast]

lemma mem_channelsOf (entries : List RawSensorEntry) (e : RawSensorEntry) (c : Int)
    (he : e ∈ entries) (hc : chFieldToInt e.channel = some c) :
    c ∈ channelsOf entries := by
  induction entries with
  | nil => cases he
  | cons a rest ih =>
    rcases List.mem_cons.mp he with rfl | hmem
    · unfold channelsOf
      rw [hc]
      exact List.mem_cons_self _ _
    · unfold channelsOf
      cases h : chFieldToInt a.channel with
      | none => exact ih hmem
      | some c2 => exact List.mem_cons_of_mem _ (ih hmem)

lemma normSentinel_not_sentinel (o : Option Scalar) (q : ℚ)
    (h : normSentinel o = some (Scalar.num q)) : ¬(q = 65535 ∨ q = 255) := by
  match o with
  | none => simp [normSentinel] at h
  | some v =>
    simp only [normSentinel] at h
    by_cases hs : isSentinel v = true
    · rw [if_pos hs] at h
      cases h
    · rw [if_neg hs] at h
      injection h with h2
      subst h2
      simpa [isSentinel] using hs

lemma defaultResolve_no_sentinel (key : String) (stype chan : Int) (q : ℚ)
    (hq : q = 65535 ∨ q = 255) (entries : List RawSensorEntry) :
    defaultResolve key stype chan entries ≠ Except.ok (some (Scalar.num q)) := by
  induction entries with
  | nil => simp [defaultResolve]
  | cons s rest ih =>
    unfold defaultResolve
    split
    · exact ih
    · split
      · exact ih
      · split
        · exact ih
        · split
          · simp
          · split
            · exact ih
            · intro hco
              injection hco with h2
              exact normSentinel_not_sentinel _ q h2 hq

lemma sameChannelWind_channel (chan : Int) (ss : List RawSensorEntry)
    (s : RawSensorEntry) (h : sameChannelWind chan ss = some s) :
    chFieldToInt s.channel = some chan ∧ chan ≠ 0 := by
  induction ss with
  | nil => simp [sameChannelWind] at h
  | cons a rest ih =>
    cases hca : chFieldToInt a.channel with
    | none =>
      simp only [sameChannelWind, hca] at h
      exact ih h
    | some c =>
      simp only [sameChannelWind, hca] at h
      by_cases hcc : c = chan ∧ c ≠ 0
      · rw [if_pos hcc] at h
        injection h with h2
        subst h2
        exact ⟨hca.trans (congrArg some hcc.1), hcc.1 ▸ hcc.2⟩
      · rw [if_neg hcc] at h
        exact ih h

lemma defaultResolve_skip (key : String) (stype chan : Int) (e : RawSensorEntry)
    (h : ¬ matchesTC stype chan e) (rest : List RawSensorEntry) :
    defaultResolve key stype chan (e :: rest) = defaultResolve key stype chan rest := by
  cases hch : chFieldToInt e.channel with
  | none => simp only [defaultResolve, hch]
  | some sc =>
    by_cases ht : typeIs e stype = false
    · simp only [defaultResolve, hch, ht, if_true]
    · have ht2 : typeIs e stype = true := by
        cases hb : typeIs e stype
        · exact absurd hb ht
        · rfl
      have hne : sc ≠ chan := by
        intro hsc
        exact h ⟨by rw [hch, hsc], ht2⟩
      simp only [defaultResolve, hch, ht2, Bool.true_eq_false, if_false, ne_eq, hne,
        not_false_eq_true, if_true]

lemma defaultResolve_append_skips (key : String) (stype chan : Int)
    (pre : List RawSensorEntry) (h : ∀ e ∈ pre, ¬ matchesTC stype chan e)
    (l : List RawSensorEntry) :
    defaultResolve key stype chan (pre ++ l) = defaultResolve key stype chan l := by
  induction pre with
  | nil => rfl
  | cons a rest ih =>
    rw [List.cons_append, defaultResolve_skip key stype chan a (h a (by simp)) (rest ++ l)]
    exact ih (fun e he => h e (by simp [he]))

lemma rawChannelIn123_of_trunc (q : ℚ) (chan : Int) (h1 : ratTrunc q = chan)
    (h2 : ¬(chan = 1 ∨ chan = 2 ∨ chan = 3)) :
    rawChannelIn123 (Scalar.num q) = false := by
  simp only [rawChannelIn123, decide_eq_false_iff_not]
  rintro (rfl | rfl | rfl)
  · exact h2 (Or.inl (by rw [← h1]; decide))
  · exact h2 (Or.inr (Or.inl (by rw [← h1]; decide)))
  · exact h2 (Or.inr (Or.inr (by rw [← h1]; decide)))

lemma defaultResolve_first_match (key : String) (stype chan : Int) (s : RawSensorEntry)
    (hch : ¬(chan = 1 ∨ chan = 2 ∨ chan = 3)) (hs : matchesTC stype chan s)
    (hsm : s.channel ≠ ChField.missing) (rest : List RawSensorEntry) :
    defaultResolve key stype chan (s :: rest) =
      Except.ok (normSentinel (extractDefault key s)) := by
  obtain ⟨hcc, ht⟩ := hs
  simp only [defaultResolve, hcc, ht, Bool.true_eq_false, if_false, ne_eq,
    not_true_eq_false]
  cases hc : s.channel with
  | missing => exact absurd hc hsm
  | val v =>
    cases v with
    | str st => simp [rawChannelIn123]
    | num q =>
      have hq : ratTrunc q = chan := by
        rw [hc] at hcc
        simp only [chFieldToInt, scalarToInt, Option.some.injEq] at hcc
        exact hcc
      simp [rawChannelIn123_of_trunc q chan hq hch]

/-! C2: channel discovery always contains 0, never 1, 2 or 3, and is
enumerated in ascending order. -/

/-- C2: for every snapshot content, the discovered channel enumeration
contains channel 0, contains none of channels 1, 2 and 3, and is sorted in
ascending order. -/
theorem discovered_channels_invariant (entries : List RawSensorEntry) :
    0 ∈ discoveredChannels entries ∧
    (1 : Int) ∉ discoveredChannels entries ∧
    (2 : Int) ∉ discoveredChannels entries ∧
    (3 : Int) ∉ discoveredChannels entries ∧
    List.Sorted (· ≤ ·) (discoveredChannels entries) := by
  have hperm := List.perm_insertionSort (α := Int) (· ≤ ·) (channelSet entries)
  refine ⟨?_, ?_, ?_, ?_, List.sorted_insertionSort _ _⟩
  · rw [discoveredChannels, hperm.mem_iff]
    simp [channelSet, List.mem_filter]
  · rw [discoveredChannels, hperm.mem_iff]
    simp [channelSet, List.mem_filter]
  · rw [discoveredChannels, hperm.mem_iff]
    simp [channelSet, List.mem_filter]
  · rw [discoveredChannels, hperm.mem_iff]
    simp [channelSet, List.mem_filter]

/-! C9: a missing channel field contributes -1 to discovery; an entry whose
channel cannot be converted to an integer contributes nothing. -/

/-- C9: during channel discovery, an entry whose channel field is missing
contributes channel -1 to the discovered set (the missing field defaults to
-1 before int conversion), and an entry whose channel field cannot be
converted to an integer is skipped, contributing nothing. -/
theorem channel_discovery_defaults :
    (∀ (entries : List RawSensorEntry) (e : RawSensorEntry),
        e ∈ entries → e.channel = ChField.missing →
        (-1 : Int) ∈ discoveredChannels entries) ∧
    (∀ (e : RawSensorEntry) (entries : List RawSensorEntry),
        chFieldToInt e.channel = none →
        discoveredChannels (e :: entries) = discoveredChannels entries) := by
  constructor
  · intro entries e he hch
    have hc : (-1 : Int) ∈ channelsOf entries :=
      mem_channelsOf entries e (-1) he (by rw [hch]; rfl)
    rw [discoveredChannels, (List.perm_insertionSort _ _).mem_iff]
    simp only [channelSet, List.mem_filter, List.mem_dedup, List.mem_cons]
    exact ⟨Or.inr hc, by decide⟩
  · intro e entries hch
    unfold discoveredChannels channelSet
    simp only [channelsOf, hch]

/-- C9 witness: a snapshot with one channel-less humidity entry discovers
channel -1, and prepending an entry with an unconvertible channel leaves the
discovery unchanged. -/
theorem channel_discovery_defaults_witness :
    (-1 : Int) ∈ discoveredChannels [noChanHumEntryA] ∧
    discoveredChannels (badChannelEntry :: [noChanHumEntryA]) =
      discoveredChannels [noChanHumEntryA] := by
  constructor
  · exact channel_discovery_defaults.1 [noChanHumEntryA] noChanHumEntryA (by simp) rfl
  · exact channel_discovery_defaults.2 badChannelEntry [noChanHumEntryA] (by rfl)

/-! C6: a failed login returns False and leaves the client state alone. -/

/-- C6: for every login outcome carrying no token (a body without a content
map, a content map without a token field, a timeout, or a transport error),
async_login returns False and leaves the stored token (and the whole client
state) unchanged; the function is total, modelling that the Python code
catches every exception and never raises to its caller. -/
theorem login_failure_returns_false_state_unchanged (st : ClientState)
    (o : LoginOutcome) (h : o.tokenField = none) :
    async_login st o = (false, st) := by
  cases o with
  | response c =>
    cases c with
    | none => rfl
    | some cc =>
      cases hcc : cc.token with
      | none => simp [async_login, hcc]
      | some t =>
        exfalso
        simp [LoginOutcome.tokenField, hcc] at h
  | timeout => rfl
  | transportError => rfl

/-- C6 witness: the scenario-B response, a content map with no token field,
makes login on a fresh client return False with the token still absent. -/
theorem login_failure_witness :
    async_login { token := none, user_data := none }
        (LoginOutcome.response (some { token := none, nickname := none })) =
      (false, { token := none, user_data := none }) :=
  login_failure_returns_false_state_unchanged _ _ rfl

/-! C7: with no token held and a failing login, the realtime fetch returns
absent without issuing the network request. -/

/-- C7: whenever the client holds no (truthy) token, async_get_realtime_weather
first performs async_login; if that login fails, it returns absent
immediately and the realtime GET request is never issued (the third
component of the result records whether the request was issued). -/
theorem no_token_failed_login_no_request (st : ClientState) (lo : LoginOutcome)
    (fo : FetchOutcome) (h1 : tokenTruthy st = false)
    (h2 : (async_login st lo).1 = false) :
    async_get_realtime_weather st lo fo = (none, (async_login st lo).2, false) := by
  unfold async_get_realtime_weather
  rw [h1]
  simp only [Bool.false_eq_true, if_false]
  rcases hl : async_login st lo with ⟨b, st1⟩
  rw [hl] at h2
  simp only at h2
  subst h2
  rfl

/-- C7 witness: a fresh client whose login times out returns absent and does
not issue the realtime request, even though the network would have answered
with content. -/
theorem no_token_failed_login_no_request_witness :
    async_get_realtime_weather { token := none, user_data := none }
        LoginOutcome.timeout (FetchOutcome.response (some { sensorDatas := [] })) =
      (none, { token := none, user_data := none }, false) :=
  no_token_failed_login_no_request { token := none, user_data := none }
    LoginOutcome.timeout (FetchOutcome.response (some { sensorDatas := [] })) rfl rfl

/-! C5: classification of an absent realtime result by the coordinator. -/

/-- C5 counterexample: a network timeout during the realtime fetch is
surfaced as the InvalidData category, not as the Timeout category.  The
client absorbs asyncio.TimeoutError into None (api_client.py lines 122-124),
so the coordinator's ValueError branch fires, and its
asyncio.TimeoutError branch cannot. -/
theorem timeout_surfaced_as_invalid_data :
    (async_update_data { token := some "abc", user_data := none }
        LoginOutcome.timeout LoginOutcome.timeout FetchOutcome.timeout).1 =
      UpdateOutcome.failed FailureKind.invalidData
        "Invalid data from API: No weather data returned" ∧
    (async_update_data { token := some "abc", user_data := none }
        LoginOutcome.timeout LoginOutcome.timeout FetchOutcome.timeout).1 ≠
      UpdateOutcome.failed FailureKind.timeout "Timeout communicating with API" := by
  refine ⟨rfl, ?_⟩
  decide

/-- C5 (amended): every absent realtime result — whatever its underlying
cause (timeout, transport error or missing content) — is surfaced by the
coordinator as the single InvalidData failure with the fixed message
"Invalid data from API: No weather data returned"; the Timeout and Generic
classification branches are unreachable because the client absorbs all
failures into an absent result, so the underlying cause is not preserved. -/
theorem absent_fetch_surfaced_as_invalid_data (st : ClientState)
    (lo1 lo2 : LoginOutcome) (fo : FetchOutcome)
    (h : (async_get_realtime_weather
        (if tokenTruthy st then st else (async_login st lo1).2) lo2 fo).1 = none) :
    (async_update_data st lo1 lo2 fo).1 =
      UpdateOutcome.failed FailureKind.invalidData
        "Invalid data from API: No weather data returned" := by
  unfold async_update_data
  simp only [h]

/-- C5 witness for the amended statement: a response without content on a
client already holding a token. -/
theorem absent_fetch_surfaced_as_invalid_data_witness :
    (async_update_data { token := some "abc", user_data := none }
        LoginOutcome.transportError LoginOutcome.transportError
        (FetchOutcome.response none)).1 =
      UpdateOutcome.failed FailureKind.invalidData
        "Invalid data from API: No weather data returned" :=
  absent_fetch_surfaced_as_invalid_data { token := some "abc", user_data := none }
    LoginOutcome.transportError LoginOutcome.transportError
    (FetchOutcome.response none) rfl

/-! C1: sentinel normalization of extracted values. -/

/-- C1 (amended): for every descriptor resolved through the sensor-type
extraction paths (the wind branch and the default type/channel scan — i.e.
value_fn absent and sensor_type present), the resolved reading is never the
numeric sentinel 65535 or 255: any extracted value equal to a sentinel after
unit conversion is normalized to absent.  The custom value_fn path and the
pressure atmos fallback do not pass through this normalization. -/
theorem typed_descriptor_never_sentinel (d : EmaxSensorDescription) (chan : Int)
    (coordData : Option RawSnapshot) (q : ℚ)
    (hfn : d.value_fn = none) (hst : d.sensor_type.isSome = true)
    (hq : q = 65535 ∨ q = 255) :
    native_value d chan coordData ≠ Except.ok (some (Scalar.num q)) := by
  obtain ⟨stype, hstype⟩ := Option.isSome_iff_exists.mp hst
  cases coordData with
  | none => simp [native_value]
  | some data =>
    simp only [native_value, hfn, hstype]
    split
    · cases hwc : windChoose chan data.sensorDatas with
      | none => simp
      | some chosen =>
        intro hco
        injection hco with h2
        exact normSentinel_not_sentinel _ q h2 hq
    · exact defaultResolve_no_sentinel d.key stype chan q hq data.sensorDatas

/-- C1 witness: the temperature descriptor can never resolve to the numeric
sentinel 65535. -/
theorem typed_descriptor_never_sentinel_witness :
    native_value temperatureDescription 0 (some { sensorDatas := [] }) ≠
      Except.ok (some (Scalar.num 65535)) :=
  typed_descriptor_never_sentinel temperatureDescription 0
    (some { sensorDatas := [] }) 65535 rfl rfl (Or.inl rfl)

/-- C1 counterexample: the pressure descriptor resolves through the atmos
fallback (sensor.py lines 597-598), which performs no sentinel
normalization: a snapshot with atmos = 255 yields the reading 255, not
absent. -/
theorem pressure_atmos_sentinel_propagated :
    native_value pressureDescription 0 (some { atmos := some (Scalar.num 255) }) =
      Except.ok (some (Scalar.num 255)) := rfl

/-! C3: channel-0 entries and wind resolution. -/

/-- C3 counterexample: with a single wind-type entry on channel 0 and
requested channel 7, the fallback selects that channel-0 entry and the
resolved wind reading (5) is sourced from it — the invariant that wind
resolution never selects a channel-0 entry is violated by the fallback
path. -/
theorem wind_channel_zero_chosen_by_fallback :
    windChoose 7 [windEntryCh0] = some windEntryCh0 ∧
    chFieldToInt windEntryCh0.channel = some 0 ∧
    native_value wind_speedDescription 7 (some { sensorDatas := [windEntryCh0] }) =
      Except.ok (some (Scalar.num 5)) :=
  ⟨rfl, rfl, rfl⟩

/-- C3 (amended): the same-channel preference step never selects a channel-0
entry — whenever it chooses one, the entry's int-converted channel equals
the requested channel and that channel is nonzero, and it is the resolution's
chosen entry.  The fallback step, however, picks the first wind-type entry
with a populated devWindVal regardless of its channel, so a channel-0 wind
entry can still be chosen through the fallback. -/
theorem wind_same_channel_choice_nonzero (chan : Int) (ss : List RawSensorEntry)
    (s : RawSensorEntry) (h : sameChannelWind chan (windSensors ss) = some s) :
    windChoose chan ss = some s ∧ chFieldToInt s.channel = some chan ∧ chan ≠ 0 := by
  refine ⟨?_, sameChannelWind_channel chan (windSensors ss) s h⟩
  simp only [windChoose, h]

/-- C3 witness: with a wind entry on channel 5 requested at channel 5, the
preference step chooses it and its channel is the nonzero requested one. -/
theorem wind_same_channel_choice_nonzero_witness :
    windChoose 5 [windEntryCh5] = some windEntryCh5 ∧
    chFieldToInt windEntryCh5.channel = some 5 ∧ (5 : Int) ≠ 0 :=
  wind_same_channel_choice_nonzero 5 [windEntryCh5] windEntryCh5 rfl

/-! C4: the wind fallback and the wind_speed key preference. -/

/-- C4: (i) when no same-channel wind match exists, resolution falls back to
the first wind-type entry with a populated devWindVal; (ii) that fallback
returns the first entry of the wind list whose devWindVal is populated,
regardless of its channel; (iii) for the wind_speed key the nested
currWindSpeed is preferred when present; (iv) the flat curVal is used only
when currWindSpeed is absent; and (v) scenario D: a single wind entry on
channel 5 with currWindSpeed 3.4, requested at channel 7, resolves to 3.4. -/
theorem wind_fallback_first_populated :
    (∀ (chan : Int) (ss : List RawSensorEntry),
        sameChannelWind chan (windSensors ss) = none →
        windChoose chan ss = firstWithWindVal (windSensors ss)) ∧
    (∀ (pre : List RawSensorEntry) (s : RawSensorEntry) (post : List RawSensorEntry),
        (∀ e ∈ pre, e.devWindVal = none) → s.devWindVal.isSome = true →
        firstWithWindVal (pre ++ s :: post) = some s) ∧
    (∀ (e : RawSensorEntry) (v : Scalar),
        e.devWindVal.bind WindVals.currWindSpeed = some v →
        windValueFor "wind_speed" e = some v) ∧
    (∀ e : RawSensorEntry,
        e.devWindVal.bind WindVals.currWindSpeed = none →
        windValueFor "wind_speed" e = e.curVal) ∧
    native_value wind_speedDescription 7 (some { sensorDatas := [scenarioDEntry] }) =
      Except.ok (some (Scalar.num 3.4)) := by
  refine ⟨?_, ?_, ?_, ?_, ?_⟩
  · intro chan ss h
    simp only [windChoose, h]
  · intro pre s post hpre hs
    induction pre with
    | nil =>
      simp only [List.nil_append, firstWithWindVal, hs, if_true]
    | cons a rest ih =>
      have ha : a.devWindVal = none := hpre a (by simp)
      rw [List.cons_append]
      simp only [firstWithWindVal, ha, Option.isSome_none, Bool.false_eq_true, if_false]
      exact ih (fun e he => hpre e (by simp [he]))
  · intro e v h
    simp [windValueFor, h]
  · intro e h
    simp [windValueFor, h]
  · have h1 : native_value wind_speedDescription 7
        (some { sensorDatas := [scenarioDEntry] }) =
        Except.ok (normSentinel (some (Scalar.num 3.4))) := rfl
    rw [h1]
    have h2 : normSentinel (some (Scalar.num 3.4)) = some (Scalar.num 3.4) := by
      simp only [normSentinel, isSentinel]
      norm_num
    rw [h2]

/-- C4 witness: the scenario-D instantiations of the fallback and
preference parts. -/
theorem wind_fallback_first_populated_witness :
    windChoose 7 [scenarioDEntry] = firstWithWindVal (windSensors [scenarioDEntry]) ∧
    firstWithWindVal ([] ++ scenarioDEntry :: []) = some scenarioDEntry ∧
    windValueFor "wind_speed" scenarioDEntry = some (Scalar.num 3.4) :=
  ⟨wind_fallback_first_populated.1 7 [scenarioDEntry] rfl,
   wind_fallback_first_populated.2.1 [] scenarioDEntry [] (by simp) rfl,
   wind_fallback_first_populated.2.2.1 scenarioDEntry (Scalar.num 3.4) rfl⟩

/-! C8: the Fahrenheit-to-Celsius conversion for the temperature
descriptor. -/

/-- C8: for the temperature descriptor, the conversion (value - 32) * 5 / 9
is applied to every extracted numeric value before it is returned (followed
only by the sentinel normalization). -/
theorem temperature_conversion_applied (chan : Int) (v : ℚ)
    (h : ¬(chan = 1 ∨ chan = 2 ∨ chan = 3)) :
    native_value temperatureDescription chan
        (some { sensorDatas := [tempEntry chan v] }) =
      Except.ok (normSentinel (some (Scalar.num ((v - 32) * 5 / 9)))) := by
  have hs : matchesTC 1 chan (tempEntry chan v) := by
    constructor
    · exact chFieldToInt_num_intCast chan
    · simp [typeIs, tempEntry]
  have h1 : native_value temperatureDescription chan
      (some { sensorDatas := [tempEntry chan v] }) =
      Except.ok (normSentinel (extractDefault "temperature" (tempEntry chan v))) := by
    simp only [native_value, temperatureDescription]
    rw [if_neg (by decide)]
    exact defaultResolve_first_match "temperature" 1 chan (tempEntry chan v) h hs
      (by simp [tempEntry]) []
  rw [h1]
  simp [extractDefault, tempEntry, tempConvert]

/-- C8 witness, scenario C: a temperature entry on channel 0 with curVal
98.6 resolves to exactly 37 degrees Celsius. -/
theorem temperature_conversion_applied_witness :
    native_value temperatureDescription 0
        (some { sensorDatas := [tempEntry 0 (98.6 : ℚ)] }) =
      Except.ok (some (Scalar.num 37)) := by
  have h := temperature_conversion_applied 0 (98.6 : ℚ) (by decide)
  rw [h]
  have h2 : ((98.6 : ℚ) - 32) * 5 / 9 = 37 := by norm_num
  rw [h2]
  rfl

/-! C10: first-match semantics of the default (non-wind) scan. -/

/-- C10 (amended): for a non-wind descriptor with a sensor type, when the
requested channel is not 1, 2 or 3 and the first entry matching the
descriptor's type and the requested channel carries an explicit channel
field, resolution returns the value derived from that first matching entry;
all later entries — matching or not — are ignored.  Both provisos are
needed, as the counterexample shows: at requested channel 2, matching
entries whose raw channel field is the exact number 2 are skipped by the
precautionary raw-value filter (sensor.py line 536) so resolution yields
absent rather than the first match's value, and at requested channel -1 a
first matching entry without a channel field makes sensor["channel"] raise
an uncaught KeyError.  (The raw-value filter tests the unconverted field, so
it only catches matches whose raw channel equals the numbers 1, 2 or 3; a
match reaching channel 2 through a string "2" or a float 2.5 is not
skipped.) -/
theorem non_wind_first_match_wins (d : EmaxSensorDescription) (stype chan : Int)
    (snap : RawSnapshot) (pre post : List RawSensorEntry) (s : RawSensorEntry)
    (hfn : d.value_fn = none) (hst : d.sensor_type = some stype)
    (hwind : ¬(stype = SENSOR_TYPE_WIND_SPEED ∨ keyStartsWithWind d.key = true))
    (hch : ¬(chan = 1 ∨ chan = 2 ∨ chan = 3))
    (hdatas : snap.sensorDatas = pre ++ s :: post)
    (hpre : ∀ e ∈ pre, ¬ matchesTC stype chan e)
    (hs : matchesTC stype chan s) (hsm : s.channel ≠ ChField.missing) :
    native_value d chan (some snap) =
      Except.ok (normSentinel (extractDefault d.key s)) := by
  simp only [native_value, hfn, hst]
  rw [if_neg hwind, hdatas, defaultResolve_append_skips d.key stype chan pre hpre,
    defaultResolve_first_match d.key stype chan s hch hs hsm post]

/-- C10 witness: two humidity entries on channel 5; resolution returns the
first entry's value 10 and ignores the second. -/
theorem non_wind_first_match_wins_witness :
    native_value humidityDescription 5
        (some { sensorDatas := [humidityEntryA, humidityEntryB] }) =
      Except.ok (some (Scalar.num 10)) := by
  have h := non_wind_first_match_wins humidityDescription 2 5
    { sensorDatas := [humidityEntryA, humidityEntryB] } [] [humidityEntryB]
    humidityEntryA rfl rfl (by decide) (by decide) rfl (by simp) (by decide) (by decide)
  rw [h]
  rfl

/-- C10 counterexample: two cases where resolution does not return the first
matching entry's derived value.  At requested channel 2 both matching
entries are skipped by the raw-channel filter (sensor.py line 536) and the
result is absent although the first entry's derived value is 10; at
requested channel -1 (discoverable via a channel-less entry, see C9) the
first matching entry has no channel field and sensor["channel"] raises an
uncaught KeyError instead of returning its value. -/
theorem first_match_counterexample :
    native_value humidityDescription 2
        (some { sensorDatas := [hum2EntryA, hum2EntryB] }) = Except.ok none ∧
    normSentinel (extractDefault "humidity" hum2EntryA) = some (Scalar.num 10) ∧
    native_value humidityDescription (-1)
        (some { sensorDatas := [noChanHumEntryA, noChanHumEntryB] }) =
      Except.error () ∧
    normSentinel (extractDefault "humidity" noChanHumEntryA) = some (Scalar.num 10) :=
  ⟨rfl, rfl, rfl, rfl⟩
